import Mathlib

/-!
# funky: execution backends and the fn daemon lifecycle

A shallow embedding of `fnutils/fn.go` and of the status / register / recheck
sequence in `cmd/root.go`.

* Go strings are Lean `String`s (sequences of Unicode scalars; byte strings that
  are not valid UTF-8 are outside the model).
* A Go `error` is `Option Error`, `none` being `nil`.  `Error` records how the
  value was built (`errors.New`, `fmt.Errorf`) without rendering the message.
* A `*os.File` is `Option File`, `none` being the nil pointer. The methods of
  `*os.File` test their receiver: on nil, `WriteString` and `Close` return
  `os.ErrInvalid` and do nothing else.
* The backend (`FS` interface) is a record of state transformers over an
  arbitrary world `σ`; every method call and every file operation is appended
  to `Run.calls`, every piece of emitted text to `Run.out`.
* `log.Fatal` ends the process (`os.Exit(1)`): the function then yields
  `Outcome.exited 1` instead of a returned value.
* `GetFnStatus` and `RegisterFnService` are given twice: over `FS`, a backend
  whose methods all return, and as `Proc.GetFnStatus` and
  `Proc.RegisterFnService` over `ProcFS`, a backend whose methods may end the
  process. The two agree on every `FS` (`toProc_GetFnStatus`,
  `toProc_RegisterFnService`). The root command runs on `LocalFS`, a `ProcFS`.
-/

namespace Funky

/-! ## Values -/

/-- The open file behind a non-nil `*os.File`. -/
structure File where
  fd : Nat
  deriving DecidableEq, Repr

/-- The `io.Reader` handed back by `Container.Exec`: the text `io.Copy` drains
from it and, if the copy fails, the message of the failure. -/
structure Reader where
  data : String
  failure : Option String
  deriving DecidableEq, Repr

/-- An operand of `fmt.Errorf`; `cause` marks the position of the `%w` operand. -/
inductive Arg where
  | str (s : String)
  | int (i : Int)
  | reader (r : Reader)
  | cause
  deriving DecidableEq, Repr

/-- A non-nil Go `error`. `New` stands for `errors.New` and for errors produced by
the operating system or a library, `Errorf` for `fmt.Errorf` without `%w` and
`Wrap` for `fmt.Errorf` with one `%w` operand. `Errno` is a `syscall.Errno` and
`PathError` a `*fs.PathError`, the error of a failed file system call, which
unwraps to `err`. A value built by `errors.New` is identified by its text. -/
inductive Error where
  | New (text : String)
  | Errorf (format : String) (args : List Arg)
  | Wrap (format : String) (args : List Arg) (cause : Error)
  | Errno (code : Nat)
  | PathError (op : String) (path : String) (err : Error)
  deriving DecidableEq, Repr

/-- The value `os.ErrInvalid`. -/
def ErrInvalid : Error := Error.New "invalid argument"

/-- An operand of a print call. -/
inductive Val where
  | str (s : String)
  | err (e : Error)
  deriving DecidableEq, Repr

/-- Text emitted by the program, one entry per print call. -/
inductive Output where
  | fmtPrintln (args : List Val)
  | fmtPrintf (format : String) (args : List Val)
  | logPrintln (args : List Val)
  | logFatal (args : List Val)
  deriving DecidableEq, Repr

/-- A call on the backend (`FS` interface) or on a file handle. -/
inductive Call where
  | Mkdir (path : String) (perm : Nat)
  | Chmod (path : String) (mode : Nat)
  | Exec (cmd : List String)
  | UserHomeDir
  | Create (path : String)
  | WriteString (file : Option File) (s : String)
  | Close (file : Option File)
  deriving DecidableEq, Repr

/-- How a function that may call `log.Fatal` ends. -/
inductive Outcome (α : Type) where
  | returned (a : α)
  | exited (code : Int)
  deriving DecidableEq, Repr

/-! ## strings.TrimSpace -/

/-- The predicate `unicode.IsSpace`: the code points with the White_Space property. -/
def isSpace (c : Char) : Bool :=
  let n := c.toNat
  (decide (0x09 ≤ n) && decide (n ≤ 0x0D)) || n == 0x20 || n == 0x85 || n == 0xA0 ||
  n == 0x1680 || (decide (0x2000 ≤ n) && decide (n ≤ 0x200A)) || n == 0x2028 ||
  n == 0x2029 || n == 0x202F || n == 0x205F || n == 0x3000

/-- The function `strings.TrimSpace`: drop leading and trailing white space. -/
def TrimSpace (s : String) : String :=
  ⟨((s.data.dropWhile isSpace).reverse.dropWhile isSpace).reverse⟩

/-! ## The backend interface -/

/-- What `Exec` returns: `(int, string, error)`. -/
structure ExecResult where
  code : Int
  output : String
  err : Option Error
  deriving DecidableEq, Repr

/-- The interface `FS` (fn.go:18-24) over a world `σ`. `Create` returns the pair
`(*os.File, error)`. Every method of this record returns to its caller; a
backend with a method that may end the process, as `LocalFS.Exec` does through
`log.Fatal`, is a `ProcFS`. -/
structure FS (σ : Type) where
  Mkdir : String → Nat → σ → Option Error × σ
  Chmod : String → Nat → σ → Option Error × σ
  Exec : List String → σ → ExecResult × σ
  UserHomeDir : σ → (String × Option Error) × σ
  Create : String → σ → (Option File × Option Error) × σ

/-- The methods of a non-nil `*os.File` used by the program, supplied by the host. -/
structure FileOps (σ : Type) where
  WriteString : File → String → σ → (Int × Option Error) × σ
  Close : File → σ → Option Error × σ

/-- The state of one run: the world, the calls issued so far (oldest first) and
the text emitted so far. -/
structure Run (σ : Type) where
  world : σ
  calls : List Call
  out : List Output

variable {σ : Type}

/-- Append one print call to the emitted text. -/
def Run.print (r : Run σ) (o : Output) : Run σ :=
  { r with out := r.out ++ [o] }

/-- Print only when `verbose` is set. -/
def Run.printIf (r : Run σ) (verbose : Bool) (o : Output) : Run σ :=
  if verbose then r.print o else r

/-- Call `fs.Exec cmd`. -/
def Run.Exec (fs : FS σ) (cmd : List String) (r : Run σ) : ExecResult × Run σ :=
  let res := fs.Exec cmd r.world
  (res.1, { r with world := res.2, calls := r.calls ++ [Call.Exec cmd] })

/-- Call `fs.Mkdir path perm`. -/
def Run.Mkdir (fs : FS σ) (path : String) (perm : Nat) (r : Run σ) : Option Error × Run σ :=
  let res := fs.Mkdir path perm r.world
  (res.1, { r with world := res.2, calls := r.calls ++ [Call.Mkdir path perm] })

/-- Call `fs.UserHomeDir()`. -/
def Run.UserHomeDir (fs : FS σ) (r : Run σ) : (String × Option Error) × Run σ :=
  let res := fs.UserHomeDir r.world
  (res.1, { r with world := res.2, calls := r.calls ++ [Call.UserHomeDir] })

/-- Call `fs.Create path`. -/
def Run.Create (fs : FS σ) (path : String) (r : Run σ) :
    (Option File × Option Error) × Run σ :=
  let res := fs.Create path r.world
  (res.1, { r with world := res.2, calls := r.calls ++ [Call.Create path] })

/-- The method `(*os.File).WriteString`: on a nil receiver it returns
`(0, os.ErrInvalid)` and touches nothing. -/
def Run.WriteString (ops : FileOps σ) (file : Option File) (s : String) (r : Run σ) :
    (Int × Option Error) × Run σ :=
  match file with
  | none => ((0, some ErrInvalid), { r with calls := r.calls ++ [Call.WriteString none s] })
  | some f =>
    let res := ops.WriteString f s r.world
    (res.1, { r with world := res.2, calls := r.calls ++ [Call.WriteString (some f) s] })

/-- The method `(*os.File).Close`: on a nil receiver it returns `os.ErrInvalid`. -/
def Run.Close (ops : FileOps σ) (file : Option File) (r : Run σ) : Option Error × Run σ :=
  match file with
  | none => (some ErrInvalid, { r with calls := r.calls ++ [Call.Close none] })
  | some f =>
    let res := ops.Close f r.world
    (res.1, { r with world := res.2, calls := r.calls ++ [Call.Close (some f)] })

/-! ## fnutils: GetFnStatus and RegisterFnService -/

/-- The package variable `fnservicename` (fn.go:16). -/
def fnservicename : String := "fnserver"

/-- The function `GetFnStatus` (fn.go:154-174). -/
def GetFnStatus (fs : FS σ) (verbose : Bool) (r : Run σ) : Option Error × Run σ :=
  let r1 := r.printIf verbose (.fmtPrintln [.str "checking the status of the fn daemon..."])
  let res := Run.Exec fs ["systemctl", "--user", "is-active", fnservicename] r1
  let status := TrimSpace res.1.output
  if status = "active" then
    (none, res.2.printIf verbose (.fmtPrintln [.str "Fn daemon is active!"]))
  else
    (some (Error.New "Fn Daemon Inactive"),
      res.2.printIf verbose (.fmtPrintf "Fn daemon is not active: %s\n" [.str status]))

/-- The text written to the unit file (the raw string literal of fn.go:192-204). -/
def unitText : String :=
  "\n\t[Unit]\n\tDescription=Fn Server Daemon\n\n\t[Service]\n\tExecStart=/usr/local/bin/fn start \n\tRestart=on-failure\n\tWorkingDirectory=%h/.fn\n\tEnvironment=FN_HOME=%h/.fn\n\n\t[Install]\n\tWantedBy=default.target\n\t"

/-- Lines 177-186 of `RegisterFnService`: the progress line, `UserHomeDir`, the
three `Mkdir` calls and the `Create` call. The results of `UserHomeDir` and of
the `Mkdir` calls are not inspected (the error of `UserHomeDir` is overwritten by
the one of `Create`). Returns what `Create` returned. -/
def RegisterFnService.create (fs : FS σ) (verbose : Bool) (r : Run σ) :
    (Option File × Option Error) × Run σ :=
  let r0 := r.printIf verbose (.fmtPrintln [.str "Registering the fn daemon..."])
  let home := Run.UserHomeDir fs r0
  let userHomeDir := home.1.1
  let m1 := Run.Mkdir fs (userHomeDir ++ "/.config") 0o755 home.2
  let m2 := Run.Mkdir fs (userHomeDir ++ "/.config/systemd") 0o755 m1.2
  let m3 := Run.Mkdir fs (userHomeDir ++ "/.config/systemd/user") 0o755 m2.2
  Run.Create fs (userHomeDir ++ "/.config/systemd/user/" ++ fnservicename ++ ".service") m3.2

/-- The function `RegisterFnService` (fn.go:176-219). `log.Fatal` after a failed
`Create` ends the process before the `defer` is reached; the deferred `Close`
runs on both return paths; the write error leads to a return only under
`err != nil && verbose`. -/
def RegisterFnService (fs : FS σ) (ops : FileOps σ) (verbose : Bool) (r : Run σ) :
    Outcome (Option Error) × Run σ :=
  let cr := RegisterFnService.create fs verbose r
  match cr.1.2 with
  | some err => (.exited 1, cr.2.print (.logFatal [.err err]))
  | none =>
    let file := cr.1.1
    let wr := Run.WriteString ops file unitText cr.2
    match wr.1.2, verbose with
    | some err, true =>
      let r5 := wr.2.print
        (.fmtPrintln [.str "Failed to write to the fn service config. Exiting..."])
      (.returned (some err), (Run.Close ops file r5).2)
    | _, _ =>
      let e1 := Run.Exec fs ["systemctl", "--user", "daemon-reload"] wr.2
      let e2 := Run.Exec fs ["systemctl", "--user", "enable", fnservicename] e1.2
      let e3 := Run.Exec fs ["systemctl", "--user", "start", fnservicename] e2.2
      let r8 := e3.2.printIf verbose (.logPrintln [.str e3.1.output])
      (.returned none, (Run.Close ops file r8).2)

/-! ## LocalFS: the host backend -/

/-- What `os.Stat` reports about an existing path. -/
structure FileInfo where
  IsDir : Bool
  deriving DecidableEq, Repr

/-- The value `os.ErrNotExist`. -/
def ErrNotExist : Error := Error.New "file does not exist"

/-- The value `os.ErrPermission`. -/
def ErrPermission : Error := Error.New "permission denied"

/-- The value `os.ErrExist`. -/
def ErrExist : Error := Error.New "file already exists"

/-- The value `errors.ErrUnsupported`. -/
def ErrUnsupported : Error := Error.New "unsupported operation"

/-- The error numbers of Linux that `syscall.Errno.Is` looks at, and `ENOTDIR`. -/
def EPERM : Nat := 1

/-- No such file or directory. -/
def ENOENT : Nat := 2

/-- Permission denied. -/
def EACCES : Nat := 13

/-- File exists. -/
def EEXIST : Nat := 17

/-- Not a directory. -/
def ENOTDIR : Nat := 20

/-- Function not implemented. -/
def ENOSYS : Nat := 38

/-- Directory not empty. -/
def ENOTEMPTY : Nat := 39

/-- Operation not supported (`ENOTSUP` and `EOPNOTSUPP`). -/
def ENOTSUP : Nat := 95

/-- The method `syscall.Errno.Is`. -/
def Errno.Is (code : Nat) (target : Error) : Bool :=
  if target = ErrPermission then code == EACCES || code == EPERM
  else if target = ErrExist then code == EEXIST || code == ENOTEMPTY
  else if target = ErrNotExist then code == ENOENT
  else if target = ErrUnsupported then code == ENOSYS || code == ENOTSUP
  else false

/-- The function `errors.Is`: walking down the chain of `Unwrap`, some error is
`target` or has an `Is` method that accepts `target`. Of the errors of the model
`syscall.Errno` has an `Is` method; `fmt.Errorf` with `%w` and `*fs.PathError`
unwrap. -/
def errorsIs (err target : Error) : Bool :=
  err == target ||
    match err with
    | .Errno code => Errno.Is code target
    | .Wrap _ _ cause => errorsIs cause target
    | .PathError _ _ cause => errorsIs cause target
    | _ => false

/-- What `exec.Command(...).Output()` reports besides the output: nothing, an
`*exec.ExitError` with its exit code, or another error (the command could not
be launched). -/
inductive CmdError where
  | exit (code : Int)
  | other (err : Error)
  deriving DecidableEq, Repr

/-- What `exec.Command(...).Output()` returns: `([]byte, error)`. -/
structure CmdResult where
  output : String
  err : Option CmdError
  deriving DecidableEq, Repr

/-- The host operating system as `LocalFS` uses it. `Stat` only reads. `Stat` and
`Create` yield either a value or an error, as `os.Stat` and `os.Create` do.
`Command name args` is `exec.Command(name, args...).Output()`; `WriteString`
and `Close` are the methods of an open `*os.File`. -/
structure Host (ω : Type) where
  Stat : String → ω → Except Error FileInfo
  MkdirAll : String → Nat → ω → Option Error × ω
  Chmod : String → Nat → ω → Option Error × ω
  Create : String → ω → Except Error File × ω
  UserHomeDir : ω → (String × Option Error) × ω
  Command : String → List String → ω → CmdResult × ω
  WriteString : File → String → ω → (Int × Option Error) × ω
  Close : File → ω → Option Error × ω

/-- A call on the host operating system. -/
inductive HostCall where
  | Stat (path : String)
  | MkdirAll (path : String) (perm : Nat)
  | Chmod (path : String) (mode : Nat)
  | Create (path : String)
  | UserHomeDir
  | Command (name : String) (args : List String)
  | WriteString (file : File) (s : String)
  | Close (file : File)
  | LogFatal (err : Error)
  deriving DecidableEq, Repr

/-- The host world and the host calls issued so far (oldest first). -/
structure HostRun (ω : Type) where
  world : ω
  calls : List HostCall

variable {ω κ : Type}

/-- The method `LocalFS.Mkdir` (fn.go:46-64). -/
def LocalFS.Mkdir (h : Host ω) (path : String) (perm : Nat) (r : HostRun ω) :
    Option Error × HostRun ω :=
  let r1 : HostRun ω := { r with calls := r.calls ++ [.Stat path] }
  match h.Stat path r.world with
  | .error err =>
    if errorsIs err ErrNotExist then
      let mk := h.MkdirAll path perm r1.world
      let r2 : HostRun ω := { world := mk.2, calls := r1.calls ++ [.MkdirAll path perm] }
      match mk.1 with
      | some err =>
        (some (.Wrap "failed to create directory %q: %w" [.str path, .cause] err), r2)
      | none =>
        let ch := h.Chmod path perm r2.world
        let r3 : HostRun ω := { world := ch.2, calls := r2.calls ++ [.Chmod path perm] }
        match ch.1 with
        | some err =>
          (some (.Wrap "failed to chmod directory %q: %w" [.str path, .cause] err), r3)
        | none => (none, r3)
    else
      (some (.Wrap "error checking directory %q: %w" [.str path, .cause] err), r1)
  | .ok info =>
    if !info.IsDir then
      (some (.Errorf "path %q exists but is not a directory" [.str path]), r1)
    else
      (none, r1)

/-- The method `LocalFS.Create` (fn.go:74-80). -/
def LocalFS.Create (h : Host ω) (path : String) (r : HostRun ω) :
    (Option File × Option Error) × HostRun ω :=
  let res := h.Create path r.world
  let r1 : HostRun ω := { world := res.2, calls := r.calls ++ [.Create path] }
  match res.1 with
  | .error err => ((none, some (.Wrap "local create %q failed: %w" [.str path, .cause] err)), r1)
  | .ok f => ((some f, none), r1)

/-- The method `LocalFS.Exec` (fn.go:28-40). An error of the command that is
not an `*exec.ExitError` reaches `log.Fatal`, which ends the process with
status 1; indexing an empty `cmd` panics, which ends it with status 2. -/
def LocalFS.Exec (h : Host ω) (cmd : List String) (r : HostRun ω) :
    Outcome ExecResult × HostRun ω :=
  match cmd with
  | [] => (.exited 2, r)
  | name :: args =>
    let res := h.Command name args r.world
    let r1 : HostRun ω := { world := res.2, calls := r.calls ++ [.Command name args] }
    match res.1.err with
    | none => (.returned ⟨0, res.1.output, none⟩, r1)
    | some (.exit code) => (.returned ⟨code, res.1.output, none⟩, r1)
    | some (.other err) => (.exited 1, { r1 with calls := r1.calls ++ [.LogFatal err] })

/-- The method `LocalFS.Chmod` (fn.go:42-44). -/
def LocalFS.Chmod (h : Host ω) (path : String) (mode : Nat) (r : HostRun ω) :
    Option Error × HostRun ω :=
  let res := h.Chmod path mode r.world
  (res.1, { world := res.2, calls := r.calls ++ [.Chmod path mode] })

/-- The method `LocalFS.UserHomeDir` (fn.go:66-72). -/
def LocalFS.UserHomeDir (h : Host ω) (r : HostRun ω) : (String × Option Error) × HostRun ω :=
  let res := h.UserHomeDir r.world
  let r1 : HostRun ω := { world := res.2, calls := r.calls ++ [.UserHomeDir] }
  match res.1.2 with
  | some err => (("", some (.Wrap "exec error: %w — %s" [.cause, .str res.1.1] err)), r1)
  | none => ((res.1.1, none), r1)

/-! ## Backends whose methods may end the process -/

/-- The interface `FS` (fn.go:18-24) for a backend whose methods may end the
process instead of returning, as `LocalFS.Exec` does. -/
structure ProcFS (σ : Type) where
  Mkdir : String → Nat → σ → Outcome (Option Error) × σ
  Chmod : String → Nat → σ → Outcome (Option Error) × σ
  Exec : List String → σ → Outcome ExecResult × σ
  UserHomeDir : σ → Outcome (String × Option Error) × σ
  Create : String → σ → Outcome (Option File × Option Error) × σ

/-- A backend whose methods always return, seen as one whose methods may not. -/
def FS.toProc (fs : FS σ) : ProcFS σ where
  Mkdir := fun path perm w => (.returned (fs.Mkdir path perm w).1, (fs.Mkdir path perm w).2)
  Chmod := fun path mode w => (.returned (fs.Chmod path mode w).1, (fs.Chmod path mode w).2)
  Exec := fun cmd w => (.returned (fs.Exec cmd w).1, (fs.Exec cmd w).2)
  UserHomeDir := fun w => (.returned (fs.UserHomeDir w).1, (fs.UserHomeDir w).2)
  Create := fun path w => (.returned (fs.Create path w).1, (fs.Create path w).2)

/-- The type `LocalFS` as an implementation of `FS`, over the host and the host
calls issued so far. Only `Exec` can end the process. -/
def LocalFS (h : Host ω) : ProcFS (HostRun ω) where
  Mkdir := fun path perm r =>
    (.returned (LocalFS.Mkdir h path perm r).1, (LocalFS.Mkdir h path perm r).2)
  Chmod := fun path mode r =>
    (.returned (LocalFS.Chmod h path mode r).1, (LocalFS.Chmod h path mode r).2)
  Exec := LocalFS.Exec h
  UserHomeDir := fun r => (.returned (LocalFS.UserHomeDir h r).1, (LocalFS.UserHomeDir h r).2)
  Create := fun path r => (.returned (LocalFS.Create h path r).1, (LocalFS.Create h path r).2)

/-- The methods of the files that `LocalFS.Create` hands out. -/
def LocalFS.files (h : Host ω) : FileOps (HostRun ω) where
  WriteString := fun f s r =>
    ((h.WriteString f s r.world).1,
      { world := (h.WriteString f s r.world).2, calls := r.calls ++ [.WriteString f s] })
  Close := fun f r =>
    ((h.Close f r.world).1, { world := (h.Close f r.world).2, calls := r.calls ++ [.Close f] })

/-- A piece of program: from a run state it returns a value or ends the process. -/
def Prog (σ : Type) (α : Type) : Type := Run σ → Outcome α × Run σ

variable {α β : Type}

/-- Return a value. -/
def Prog.pure (a : α) : Prog σ α := fun r => (.returned a, r)

/-- Run `m`, then `f` on its value; once the process has ended nothing follows. -/
def Prog.bind (m : Prog σ α) (f : α → Prog σ β) : Prog σ β := fun r =>
  match (m r).1 with
  | .returned a => f a (m r).2
  | .exited code => (.exited code, (m r).2)

instance Prog.instMonad : Monad (Prog σ) where
  pure := Prog.pure
  bind := Prog.bind

/-- Issue the backend call `c`, carried out by `op`. -/
def Prog.call (c : Call) (op : σ → Outcome α × σ) : Prog σ α := fun r =>
  ((op r.world).1, { r with world := (op r.world).2, calls := r.calls ++ [c] })

/-- Print. -/
def Prog.print (o : Output) : Prog σ Unit := fun r => (.returned (), r.print o)

/-- Print only when `verbose` is set. -/
def Prog.printIf (verbose : Bool) (o : Output) : Prog σ Unit := fun r =>
  (.returned (), r.printIf verbose o)

/-- End the process, as `os.Exit`. -/
def Prog.exit (code : Int) : Prog σ α := fun r => (.exited code, r)

/-- The method `(*os.File).WriteString`. -/
def Prog.WriteString (ops : FileOps σ) (file : Option File) (s : String) :
    Prog σ (Int × Option Error) := fun r =>
  (.returned (Run.WriteString ops file s r).1, (Run.WriteString ops file s r).2)

/-- The method `(*os.File).Close`. -/
def Prog.Close (ops : FileOps σ) (file : Option File) : Prog σ (Option Error) := fun r =>
  (.returned (Run.Close ops file r).1, (Run.Close ops file r).2)

/-- The program `m` issues the call `a` exactly `n` times, wherever it ends. -/
def Prog.Issues (a : Call) (n : Nat) (m : Prog σ α) : Prop :=
  ∀ r, ∃ mid : List Call, (m r).2.calls = r.calls ++ mid ∧ mid.count a = n

/-- The function `GetFnStatus` (fn.go:154-174) on a backend whose methods may end
the process. -/
def Proc.GetFnStatus (fs : ProcFS σ) (verbose : Bool) : Prog σ (Option Error) := do
  Prog.printIf verbose (.fmtPrintln [.str "checking the status of the fn daemon..."])
  let res ← Prog.call (.Exec ["systemctl", "--user", "is-active", fnservicename])
    (fs.Exec ["systemctl", "--user", "is-active", fnservicename])
  let status := TrimSpace res.output
  if status = "active" then
    Prog.printIf verbose (.fmtPrintln [.str "Fn daemon is active!"])
    pure none
  else
    Prog.printIf verbose (.fmtPrintf "Fn daemon is not active: %s\n" [.str status])
    pure (some (Error.New "Fn Daemon Inactive"))

/-- The function `RegisterFnService` (fn.go:176-219) on a backend whose methods
may end the process. `log.Fatal` after a failed `Create` ends the process; the
deferred `Close` runs on both return paths and on no exit. -/
def Proc.RegisterFnService (fs : ProcFS σ) (ops : FileOps σ) (verbose : Bool) :
    Prog σ (Option Error) := do
  Prog.printIf verbose (.fmtPrintln [.str "Registering the fn daemon..."])
  let home ← Prog.call .UserHomeDir fs.UserHomeDir
  let userHomeDir := home.1
  let _ ← Prog.call (.Mkdir (userHomeDir ++ "/.config") 0o755)
    (fs.Mkdir (userHomeDir ++ "/.config") 0o755)
  let _ ← Prog.call (.Mkdir (userHomeDir ++ "/.config/systemd") 0o755)
    (fs.Mkdir (userHomeDir ++ "/.config/systemd") 0o755)
  let _ ← Prog.call (.Mkdir (userHomeDir ++ "/.config/systemd/user") 0o755)
    (fs.Mkdir (userHomeDir ++ "/.config/systemd/user") 0o755)
  let cr ← Prog.call
    (.Create (userHomeDir ++ "/.config/systemd/user/" ++ fnservicename ++ ".service"))
    (fs.Create (userHomeDir ++ "/.config/systemd/user/" ++ fnservicename ++ ".service"))
  match cr.2 with
  | some err => do
    Prog.print (.logFatal [.err err])
    Prog.exit 1
  | none =>
    let file := cr.1
    do
    let wr ← Prog.WriteString ops file unitText
    match wr.2, verbose with
    | some err, true => do
      Prog.print (.fmtPrintln [.str "Failed to write to the fn service config. Exiting..."])
      let _ ← Prog.Close ops file
      pure (some err)
    | _, _ => do
      let _ ← Prog.call (.Exec ["systemctl", "--user", "daemon-reload"])
        (fs.Exec ["systemctl", "--user", "daemon-reload"])
      let _ ← Prog.call (.Exec ["systemctl", "--user", "enable", fnservicename])
        (fs.Exec ["systemctl", "--user", "enable", fnservicename])
      let out ← Prog.call (.Exec ["systemctl", "--user", "start", fnservicename])
        (fs.Exec ["systemctl", "--user", "start", fnservicename])
      Prog.printIf verbose (.logPrintln [.str out.output])
      let _ ← Prog.Close ops file
      pure none

/-! ## cmd: the root command -/

/-- Lines 28 and 36-49 of `rootCmd.PersistentPreRunE` (root.go), for the value
`verbose` of the flag read on the lines before: the backend is `LocalFS`; one
status check, and on an error one registration (its result is dropped) and one
more status check. The process may end inside any of the three calls. -/
def PersistentPreRunE (h : Host ω) (verbose : Bool) : Prog (HostRun ω) (Option Error) := do
  let err ← Proc.GetFnStatus (LocalFS h) verbose
  match err with
  | none => do
    Prog.printIf verbose (.fmtPrintln [.str "fn running!"])
    pure none
  | some _ => do
    let _ ← Proc.RegisterFnService (LocalFS h) (LocalFS.files h) verbose
    let err2 ← Proc.GetFnStatus (LocalFS h) verbose
    match err2 with
    | some e => do
      Prog.print (.fmtPrintln
        [.str "Error: failed to start the fn daemon.\n", .err e, .str "\nExiting..."])
      pure (some e)
    | none => do
      Prog.printIf verbose (.fmtPrintln [.str "fn running!"])
      pure none

/-! ## ContainerFS: the sandbox backend -/

/-- What `Container.Exec` returns: `(int, io.Reader, error)`. -/
structure ContainerExec where
  code : Int
  reader : Reader
  err : Option Error
  deriving DecidableEq, Repr

/-- The container behind `ContainerFS`, reached through `Container.Exec`. -/
structure Container (κ : Type) where
  Exec : List String → κ → ContainerExec × κ

/-- The verb `%o` of `fmt.Sprintf` applied to a file mode. -/
def octal (n : Nat) : String := ⟨Nat.toDigits 8 n⟩

/-- The method `ContainerFS.Exec` (fn.go:87-100). -/
def ContainerFS.Exec (c : Container κ) (cmd : List String) (w : κ) : ExecResult × κ :=
  let res := c.Exec cmd w
  match res.1.err with
  | some err => (⟨-1, "", some err⟩, res.2)
  | none =>
    match res.1.reader.failure with
    | some msg => (⟨-1, "", some (.New msg)⟩, res.2)
    | none => (⟨res.1.code, res.1.reader.data, none⟩, res.2)

/-- The method `ContainerFS.Mkdir` (fn.go:102-112). -/
def ContainerFS.Mkdir (c : Container κ) (path : String) (perm : Nat) (w : κ) :
    Option Error × κ :=
  let res := c.Exec
    ["sh", "-c", "mkdir -p " ++ path ++ " && chmod " ++ octal perm ++ " " ++ path] w
  match res.1.err with
  | some err => (some (.Wrap "exec error: %w — %s" [.cause, .reader res.1.reader] err), res.2)
  | none =>
    if res.1.code ≠ 0 then
      (some (.Errorf "non-zero exit (%d): %s" [.int res.1.code, .reader res.1.reader]), res.2)
    else
      (none, res.2)

/-- The method `ContainerFS.Chmod` (fn.go:114-124). -/
def ContainerFS.Chmod (c : Container κ) (path : String) (mode : Nat) (w : κ) :
    Option Error × κ :=
  let res := c.Exec ["chmod", octal mode, path] w
  match res.1.err with
  | some err => (some (.Wrap "exec error: %w — %s" [.cause, .reader res.1.reader] err), res.2)
  | none =>
    if res.1.code ≠ 0 then
      (some (.Errorf "non-zero exit (%d): %s" [.int res.1.code, .reader res.1.reader]), res.2)
    else
      (none, res.2)

/-- The method `ContainerFS.UserHomeDir` (fn.go:126-139). -/
def ContainerFS.UserHomeDir (c : Container κ) (w : κ) : (String × Option Error) × κ :=
  let res := c.Exec ["sh", "-c", "echo", "$HOME"] w
  match res.1.err with
  | some err => (("", some (.Wrap "Error getting home dir: %w" [.cause] err)), res.2)
  | none =>
    match res.1.reader.failure with
    | some msg => (("", some (.New msg)), res.2)
    | none => ((res.1.reader.data, none), res.2)

/-- The method `ContainerFS.Create` (fn.go:141-152). Every path returns a nil
`*os.File`. -/
def ContainerFS.Create (c : Container κ) (path : String) (w : κ) :
    (Option File × Option Error) × κ :=
  let res := c.Exec ["sh", "-c", "touch " ++ path] w
  match res.1.err with
  | some err =>
    ((none, some (.Wrap "container exec error: %w – output: %s" [.cause, .reader res.1.reader]
      err)), res.2)
  | none =>
    if res.1.code ≠ 0 then
      ((none, some (.Errorf "container touch failed (%d): %s"
        [.int res.1.code, .reader res.1.reader])), res.2)
    else
      ((none, none), res.2)

/-- The type `ContainerFS` as an implementation of `FS`. -/
def ContainerFS (c : Container κ) : FS κ where
  Mkdir := ContainerFS.Mkdir c
  Chmod := ContainerFS.Chmod c
  Exec := ContainerFS.Exec c
  UserHomeDir := ContainerFS.UserHomeDir c
  Create := ContainerFS.Create c

/-! ## Lines of a text -/

/-- Split a list of characters at every line feed. -/
def splitLines : List Char → List (List Char)
  | [] => [[]]
  | c :: cs =>
    match splitLines cs with
    | [] => [[c]]
    | l :: ls => if c = '\n' then [] :: l :: ls else (c :: l) :: ls

/-- The lines of a text, without their line feeds. -/
def lines (s : String) : List String :=
  (splitLines s.data).map String.mk

/-! ## Concrete backends -/

/-- A backend over a trivial world that answers every call with a fixed reply. -/
structure Script where
  home : String × Option Error
  mkdir : Option Error
  create : Option File × Option Error
  exec : ExecResult

/-- The backend that plays a script. -/
def Script.fs (s : Script) : FS Unit where
  Mkdir := fun _ _ w => (s.mkdir, w)
  Chmod := fun _ _ w => (none, w)
  Exec := fun _ w => (s.exec, w)
  UserHomeDir := fun w => (s.home, w)
  Create := fun _ w => (s.create, w)

/-- File operations that answer every write with a fixed error value. -/
def fixedFiles (ρ : Type) (write : Option Error) : FileOps ρ where
  WriteString := fun _ s w => ((if write.isSome then 0 else s.utf8ByteSize, write), w)
  Close := fun _ w => (none, w)

/-- A host on which everything succeeds and the service is inactive. -/
def inactiveHost : Script where
  home := ("/home/u", none)
  mkdir := none
  create := (some ⟨3⟩, none)
  exec := ⟨3, "inactive\n", none⟩

/-- A backend whose `Exec` hands back the text `active` together with an error. -/
def activeWithError : Script where
  home := ("/home/u", none)
  mkdir := none
  create := (some ⟨3⟩, none)
  exec := ⟨0, "active\n", some (.New "broken pipe")⟩

/-- A host without a home directory: `UserHomeDir` fails as `LocalFS.UserHomeDir`
does, everything else succeeds. -/
def noHome : Script where
  home := ("", some (.Wrap "exec error: %w — %s" [.cause, .str ""] (.New "$HOME is not defined")))
  mkdir := none
  create := (some ⟨3⟩, none)
  exec := ⟨0, "", none⟩

/-- A host on which every `Mkdir` fails and everything else succeeds. -/
def noMkdir : Script where
  home := ("/home/u", none)
  mkdir := some (.New "permission denied")
  create := (some ⟨3⟩, none)
  exec := ⟨0, "", none⟩

/-- A container that cannot be reached: every `Exec` fails, whatever it carries. -/
def unreachableContainer : Container Unit where
  Exec := fun _ w => (⟨0, ⟨"active\n", none⟩, some (.New "container is not running")⟩, w)

/-- A host on which the service is inactive and the unit file cannot be created. -/
def brokenCreate : Script where
  home := ("/home/u", none)
  mkdir := none
  create := (none, some (.New "permission denied"))
  exec := ⟨3, "inactive\n", none⟩

/-- A container in which every command succeeds, whose service manager reports
the service active once `systemctl --user start fnserver` has run. The world is
the flag that records the start. -/
def startableContainer : Container Bool where
  Exec := fun cmd started =>
    if cmd = ["systemctl", "--user", "start", "fnserver"] then
      (⟨0, ⟨"", none⟩, none⟩, true)
    else if cmd = ["systemctl", "--user", "is-active", "fnserver"] then
      (if started then ⟨0, ⟨"active\n", none⟩, none⟩ else ⟨3, ⟨"inactive\n", none⟩, none⟩,
        started)
    else if cmd = ["sh", "-c", "echo", "$HOME"] then
      (⟨0, ⟨"/root", none⟩, none⟩, started)
    else
      (⟨0, ⟨"", none⟩, none⟩, started)

/-- A host that answers every call with a fixed reply: nothing exists yet,
directories can be made, `Create` and every command answer as scripted. -/
structure HostScript where
  create : Except Error File
  command : CmdResult

/-- The host that plays a script. -/
def HostScript.host (s : HostScript) : Host Unit where
  Stat := fun path _ => .error (.PathError "stat" path (.Errno ENOENT))
  MkdirAll := fun _ _ w => (none, w)
  Chmod := fun _ _ w => (none, w)
  Create := fun _ w => (s.create, w)
  UserHomeDir := fun w => (("/home/u", none), w)
  Command := fun _ _ w => (s.command, w)
  WriteString := fun _ t w => ((t.utf8ByteSize, none), w)
  Close := fun _ w => (none, w)

/-- A host whose service manager reports the service active. -/
def hostActive : HostScript where
  create := .ok ⟨3⟩
  command := ⟨"active\n", none⟩

/-- A host whose service manager reports the service inactive (exit status 3),
before and after the registration. -/
def hostInactive : HostScript where
  create := .ok ⟨3⟩
  command := ⟨"inactive\n", some (.exit 3)⟩

/-- A host with an inactive service on which the unit file cannot be created. -/
def hostCreateFails : HostScript where
  create := .error
    (.PathError "open" "/home/u/.config/systemd/user/fnserver.service" (.Errno EACCES))
  command := ⟨"inactive\n", some (.exit 3)⟩

/-- A host without `systemctl`: no command can be launched. -/
def hostNoSystemctl : HostScript where
  create := .ok ⟨3⟩
  command := ⟨"", some (.other (.New "executable file not found in $PATH"))⟩

/-- An entry of a small host file system. `reachable` is false when a
directory above the path denies search permission to the caller. -/
structure Entry where
  path : String
  isDir : Bool
  perm : Nat
  reachable : Bool
  deriving DecidableEq, Repr

/-- The entry of a path, if the path exists. -/
def Entry.find (path : String) (w : List Entry) : Option Entry :=
  w.find? (fun e => e.path == path)

/-- The directories above a path and the path itself, shortest first. -/
def parentsAux : List Char → List Char → List String
  | acc, [] => if acc.isEmpty then [] else [String.mk acc.reverse]
  | acc, c :: cs =>
    if c = '/' ∧ ¬ acc.isEmpty then String.mk acc.reverse :: parentsAux (c :: acc) cs
    else parentsAux (c :: acc) cs

/-- The directories above a path and the path itself, shortest first. -/
def parents (path : String) : List String :=
  parentsAux [] path.data

/-- A small host file system. `Stat` fails with `ENOENT` on a missing path and
with `EACCES` on a path that cannot be reached; `MkdirAll` creates the missing
directories of the path; `Chmod` sets the permission of an existing path. -/
def dirHost : Host (List Entry) where
  Stat := fun path w =>
    match Entry.find path w with
    | none => .error (.PathError "stat" path (.Errno ENOENT))
    | some e =>
      if e.reachable then .ok ⟨e.isDir⟩ else .error (.PathError "stat" path (.Errno EACCES))
  MkdirAll := fun path perm w =>
    if (parents path).any (fun p =>
        match Entry.find p w with
        | some e => !e.isDir
        | none => false) then
      (some (.PathError "mkdir" path (.Errno ENOTDIR)), w)
    else
      (none, ((parents path).filter (fun p => (Entry.find p w).isNone)).map
        (fun p => ⟨p, true, perm, true⟩) ++ w)
  Chmod := fun path mode w =>
    match Entry.find path w with
    | none => (some (.PathError "chmod" path (.Errno ENOENT)), w)
    | some _ => (none, w.map (fun e => if e.path == path then { e with perm := mode } else e))
  Create := fun path w => (.ok ⟨3⟩, ⟨path, false, 0o644, true⟩ :: w)
  UserHomeDir := fun w => (("/home/u", none), w)
  Command := fun _ _ w => (⟨"", none⟩, w)
  WriteString := fun _ s w => ((s.utf8ByteSize, none), w)
  Close := fun _ w => (none, w)

/-- A host file system with the directory `/existing/dir`, the file
`/etc/passwd`, and the directory `/locked/dir` below a directory that the
caller may not search. -/
def someFiles : List Entry :=
  [⟨"/existing/dir", true, 0o700, true⟩, ⟨"/etc/passwd", false, 0o644, true⟩,
   ⟨"/locked/dir", true, 0o755, false⟩]

/-! ## Theorems -/

set_option maxRecDepth 10000

/-- White space around the status text is ignored. -/
theorem TrimSpace_active_line : TrimSpace "active\n" = "active" := by decide

/-- The other status texts of the service manager are not `active`. -/
theorem TrimSpace_other_status :
    TrimSpace "" ≠ "active" ∧ TrimSpace "inactive\n" ≠ "active" ∧
    TrimSpace "unknown\n" ≠ "active" ∧ TrimSpace "failed\n" ≠ "active" := by decide

/-- The path of the unit file, written in one piece. -/
theorem unit_path (home : String) :
    home ++ "/.config/systemd/user/" ++ fnservicename ++ ".service"
      = home ++ "/.config/systemd/user/fnserver.service" := by
  rw [String.append_assoc, String.append_assoc]; rfl

/-- The calls of `RegisterFnService` up to `Create`, whatever they return. -/
theorem RegisterFnService.create_calls (fs : FS σ) (verbose : Bool) (r : Run σ) :
    (RegisterFnService.create fs verbose r).2.calls = r.calls ++
      [Call.UserHomeDir,
       Call.Mkdir ((fs.UserHomeDir r.world).1.1 ++ "/.config") 0o755,
       Call.Mkdir ((fs.UserHomeDir r.world).1.1 ++ "/.config/systemd") 0o755,
       Call.Mkdir ((fs.UserHomeDir r.world).1.1 ++ "/.config/systemd/user") 0o755,
       Call.Create ((fs.UserHomeDir r.world).1.1 ++ "/.config/systemd/user/fnserver.service")] := by
  cases verbose <;>
    simp [RegisterFnService.create, Run.Create, Run.Mkdir, Run.UserHomeDir, Run.printIf,
      Run.print, unit_path]

/-- The calls of `RegisterFnService` after `Create`, case by case. -/
theorem RegisterFnService_cases (fs : FS σ) (ops : FileOps σ) (verbose : Bool) (r : Run σ) :
    let cr := RegisterFnService.create fs verbose r
    let wr := Run.WriteString ops cr.1.1 unitText cr.2
    let res := RegisterFnService fs ops verbose r
    match cr.1.2 with
    | some _ => res.1 = .exited 1 ∧ res.2.calls = cr.2.calls ∧ res.2.world = cr.2.world
    | none =>
      if wr.1.2.isSome ∧ verbose = true then
        res.1 = .returned wr.1.2 ∧
        res.2.calls = cr.2.calls ++ [Call.WriteString cr.1.1 unitText, Call.Close cr.1.1]
      else
        res.1 = .returned none ∧
        res.2.calls = cr.2.calls ++
          [Call.WriteString cr.1.1 unitText,
           Call.Exec ["systemctl", "--user", "daemon-reload"],
           Call.Exec ["systemctl", "--user", "enable", "fnserver"],
           Call.Exec ["systemctl", "--user", "start", "fnserver"],
           Call.Close cr.1.1] := by
  intro cr wr res
  rcases hcr : RegisterFnService.create fs verbose r with ⟨⟨file, err⟩, r4⟩
  have hcr1 : cr = ((file, err), r4) := hcr
  cases err with
  | some e => simp [res, hcr1, RegisterFnService, hcr, Run.print]
  | none =>
    cases file with
    | none =>
      cases verbose <;>
        simp [res, wr, hcr1, RegisterFnService, hcr, Run.print, Run.printIf, Run.WriteString,
          Run.Close, Run.Exec, fnservicename]
    | some f =>
      cases hw : (ops.WriteString f unitText r4.world).1.2 <;> cases verbose <;>
        simp [res, wr, hcr1, RegisterFnService, hcr, Run.print, Run.printIf, Run.WriteString,
          Run.Close, Run.Exec, fnservicename, hw]


/-- C1: `GetFnStatus` issues exactly one `Exec`, with argv
`systemctl --user is-active fnserver`, and returns nil exactly when the trimmed
output of that call is `active`; for every other output it returns the error
`Fn Daemon Inactive`. This holds for every backend and both values of `verbose`. -/
theorem GetFnStatus_status (fs : FS σ) (verbose : Bool) (r : Run σ) :
    (GetFnStatus fs verbose r).2.calls
        = r.calls ++ [Call.Exec ["systemctl", "--user", "is-active", "fnserver"]]
    ∧ (GetFnStatus fs verbose r).2.world
        = (fs.Exec ["systemctl", "--user", "is-active", "fnserver"] r.world).2
    ∧ ((GetFnStatus fs verbose r).1 = none ↔
        TrimSpace (fs.Exec ["systemctl", "--user", "is-active", "fnserver"] r.world).1.output
          = "active")
    ∧ (GetFnStatus fs verbose r).1
        = if TrimSpace (fs.Exec ["systemctl", "--user", "is-active", "fnserver"] r.world).1.output
            = "active" then none else some (Error.New "Fn Daemon Inactive") := by
  cases verbose <;>
    by_cases h : TrimSpace
        (fs.Exec ["systemctl", "--user", "is-active", "fnserver"] r.world).1.output = "active" <;>
    simp [GetFnStatus, Run.Exec, Run.printIf, Run.print, fnservicename, h]

/-- The calls and the world of `GetFnStatus`: one `Exec`, nothing else. -/
theorem GetFnStatus_calls (fs : FS σ) (verbose : Bool) (r : Run σ) :
    (GetFnStatus fs verbose r).2.calls
        = r.calls ++ [Call.Exec ["systemctl", "--user", "is-active", "fnserver"]]
    ∧ (GetFnStatus fs verbose r).2.world
        = (fs.Exec ["systemctl", "--user", "is-active", "fnserver"] r.world).2 := by
  cases verbose <;>
    by_cases h : TrimSpace
        (fs.Exec ["systemctl", "--user", "is-active", "fnserver"] r.world).1.output = "active" <;>
    simp [GetFnStatus, Run.Exec, Run.printIf, Run.print, fnservicename, h]

/-- The calls of one `RegisterFnService`: one `UserHomeDir`, three `Mkdir`, one
`Create`, then a tail without `UserHomeDir` and without the status command. -/
theorem RegisterFnService_calls (fs : FS σ) (ops : FileOps σ) (verbose : Bool) (r : Run σ) :
    ∃ mid : List Call,
      (RegisterFnService fs ops verbose r).2.calls = r.calls ++ mid ∧
      mid.count Call.UserHomeDir = 1 ∧
      mid.count (Call.Exec ["systemctl", "--user", "is-active", "fnserver"]) = 0 := by
  have hc := RegisterFnService.create_calls fs verbose r
  have h := RegisterFnService_cases fs ops verbose r
  simp only [] at h
  rcases hcr : (RegisterFnService.create fs verbose r).1.2 with _ | e
  · rw [hcr] at h
    simp only [] at h
    split at h
    · refine ⟨_, by rw [h.2, hc, List.append_assoc], ?_, ?_⟩ <;> simp [List.count_cons]
    · refine ⟨_, by rw [h.2, hc, List.append_assoc], ?_, ?_⟩ <;> simp [List.count_cons]
  · rw [hcr] at h
    simp only [] at h
    refine ⟨_, by rw [h.2.1, hc], ?_, ?_⟩ <;> simp [List.count_cons]

/-- C4, as stated, fails: a backend whose `Exec` returns a non-nil error together
with the output `active` makes `GetFnStatus` return nil, for both values of
`verbose`. -/
theorem GetFnStatus_ignores_exec_error :
    (activeWithError.fs.Exec ["systemctl", "--user", "is-active", "fnserver"] ()).1.err ≠ none ∧
    (GetFnStatus activeWithError.fs false ⟨(), [], []⟩).1 = none ∧
    (GetFnStatus activeWithError.fs true ⟨(), [], []⟩).1 = none := by
  decide

/-- C4 (amended): `GetFnStatus` never inspects the error or the exit code of
`Exec`. For every backend that pairs no error with an output trimming to
`active`, an `Exec` of the status command that returns a non-nil error makes
`GetFnStatus` return the error `Fn Daemon Inactive`, whatever the exit code. -/
theorem GetFnStatus_exec_error (fs : FS σ) (verbose : Bool) (r : Run σ)
    (hpair : ∀ cmd w, (fs.Exec cmd w).1.err ≠ none →
      TrimSpace (fs.Exec cmd w).1.output ≠ "active")
    (herr : (fs.Exec ["systemctl", "--user", "is-active", "fnserver"] r.world).1.err ≠ none) :
    (GetFnStatus fs verbose r).1 = some (Error.New "Fn Daemon Inactive") ∧
    (GetFnStatus fs verbose r).2.calls
      = r.calls ++ [Call.Exec ["systemctl", "--user", "is-active", "fnserver"]] := by
  have hout := hpair _ _ herr
  cases verbose <;> simp [GetFnStatus, Run.Exec, Run.printIf, Run.print, fnservicename, hout]

/-- With every error `ContainerFS.Exec` returns the exit code -1 and the empty
output. -/
theorem ContainerFS.Exec_error (c : Container κ) (cmd : List String) (w : κ)
    (h : (ContainerFS.Exec c cmd w).1.err ≠ none) :
    (ContainerFS.Exec c cmd w).1.code = -1 ∧ (ContainerFS.Exec c cmd w).1.output = "" := by
  unfold ContainerFS.Exec at h ⊢
  rcases he : (c.Exec cmd w).1.err with _ | e
  · rcases hf : (c.Exec cmd w).1.reader.failure with _ | m
    · simp [he, hf] at h
    · simp [he, hf]
  · simp [he]

/-- Witness of C4 (amended): `ContainerFS` pairs every error with the empty
output, so on a container that cannot be reached the status check fails with
`Fn Daemon Inactive`, although the reader carries `active`. -/
theorem GetFnStatus_exec_error_witness :
    (GetFnStatus (ContainerFS unreachableContainer) true ⟨(), [], []⟩).1
      = some (Error.New "Fn Daemon Inactive") :=
  (GetFnStatus_exec_error (ContainerFS unreachableContainer) true ⟨(), [], []⟩
    (fun cmd w h => by
      rw [show ((ContainerFS unreachableContainer).Exec cmd w).1.output = ""
        from (ContainerFS.Exec_error unreachableContainer cmd w h).2]
      decide)
    (by decide)).1

/-- C5: the code does not abort. On a host whose `UserHomeDir` fails, and on a
host whose every `Mkdir` fails, `RegisterFnService` goes on to issue the later
`Mkdir` calls, `Create`, the write and the three `Exec` calls, and returns nil. -/
theorem RegisterFnService_ignores_home_and_mkdir_errors :
    (noHome.fs.UserHomeDir ()).1.2 ≠ none ∧
    (RegisterFnService noHome.fs (fixedFiles Unit none) false ⟨(), [], []⟩).1
      = Outcome.returned none ∧
    (RegisterFnService noHome.fs (fixedFiles Unit none) false ⟨(), [], []⟩).2.calls
      = [Call.UserHomeDir,
         Call.Mkdir "/.config" 0o755,
         Call.Mkdir "/.config/systemd" 0o755,
         Call.Mkdir "/.config/systemd/user" 0o755,
         Call.Create "/.config/systemd/user/fnserver.service",
         Call.WriteString (some ⟨3⟩) unitText,
         Call.Exec ["systemctl", "--user", "daemon-reload"],
         Call.Exec ["systemctl", "--user", "enable", "fnserver"],
         Call.Exec ["systemctl", "--user", "start", "fnserver"],
         Call.Close (some ⟨3⟩)] ∧
    (noMkdir.fs.Mkdir "/home/u/.config" 0o755 ()).1 ≠ none ∧
    (RegisterFnService noMkdir.fs (fixedFiles Unit none) false ⟨(), [], []⟩).1
      = Outcome.returned none ∧
    (RegisterFnService noMkdir.fs (fixedFiles Unit none) false ⟨(), [], []⟩).2.calls
      = [Call.UserHomeDir,
         Call.Mkdir "/home/u/.config" 0o755,
         Call.Mkdir "/home/u/.config/systemd" 0o755,
         Call.Mkdir "/home/u/.config/systemd/user" 0o755,
         Call.Create "/home/u/.config/systemd/user/fnserver.service",
         Call.WriteString (some ⟨3⟩) unitText,
         Call.Exec ["systemctl", "--user", "daemon-reload"],
         Call.Exec ["systemctl", "--user", "enable", "fnserver"],
         Call.Exec ["systemctl", "--user", "start", "fnserver"],
         Call.Close (some ⟨3⟩)] := by
  decide

/-- C6: when `Create` of the unit file returns a non-nil error, `RegisterFnService`
ends the process with exit code 1; its calls are `UserHomeDir`, the three
`Mkdir` and the `Create`, so nothing is written and no `Exec` is issued, and
the world is left as `Create` left it. -/
theorem RegisterFnService_create_error (fs : FS σ) (ops : FileOps σ) (verbose : Bool)
    (r : Run σ) (err : Error)
    (h : (RegisterFnService.create fs verbose r).1.2 = some err) :
    (RegisterFnService fs ops verbose r).1 = Outcome.exited 1 ∧
    (RegisterFnService fs ops verbose r).2.calls = r.calls ++
      [Call.UserHomeDir,
       Call.Mkdir ((fs.UserHomeDir r.world).1.1 ++ "/.config") 0o755,
       Call.Mkdir ((fs.UserHomeDir r.world).1.1 ++ "/.config/systemd") 0o755,
       Call.Mkdir ((fs.UserHomeDir r.world).1.1 ++ "/.config/systemd/user") 0o755,
       Call.Create ((fs.UserHomeDir r.world).1.1 ++ "/.config/systemd/user/fnserver.service")] ∧
    (RegisterFnService fs ops verbose r).2.world
      = (RegisterFnService.create fs verbose r).2.world ∧
    (RegisterFnService fs ops verbose r).2.out
      = (RegisterFnService.create fs verbose r).2.out ++ [Output.logFatal [Val.err err]] := by
  have hc := RegisterFnService.create_calls fs verbose r
  simp [RegisterFnService, h, Run.print, hc]

/-- Witness of C6: a host on which the unit file cannot be created, with and
without `verbose`. -/
theorem RegisterFnService_create_error_witness :
    (RegisterFnService brokenCreate.fs (fixedFiles Unit none) true ⟨(), [], []⟩).1
      = Outcome.exited 1 ∧
    (RegisterFnService brokenCreate.fs (fixedFiles Unit none) true ⟨(), [], []⟩).2.calls
      = [Call.UserHomeDir,
         Call.Mkdir "/home/u/.config" 0o755,
         Call.Mkdir "/home/u/.config/systemd" 0o755,
         Call.Mkdir "/home/u/.config/systemd/user" 0o755,
         Call.Create "/home/u/.config/systemd/user/fnserver.service"] :=
  have h := RegisterFnService_create_error brokenCreate.fs (fixedFiles Unit none) true
    ⟨(), [], []⟩ (.New "permission denied") (by decide)
  ⟨h.1, h.2.1.trans (by decide)⟩

/-- C3: the code misses the claim on the sandbox backend with `verbose` set.
`ContainerFS.Create` succeeds with a nil handle, the write on it fails with
`os.ErrInvalid`, and under `verbose` the function returns that error before any
`Exec`: the service is never started and the following `GetFnStatus` fails, as
opposed to what `TestUbuntuContainerCommand` requires. Without `verbose` the
same backend gets the three `Exec` calls, nil, and an active service. -/
theorem RegisterFnService_sandbox_verbose :
    ((ContainerFS startableContainer).UserHomeDir false).1.2 = none ∧
    ((ContainerFS startableContainer).Mkdir "/root/.config/systemd/user" 0o755 false).1 = none ∧
    ((ContainerFS startableContainer).Create "/root/.config/systemd/user/fnserver.service"
      false).1.2 = none ∧
    (RegisterFnService (ContainerFS startableContainer) (fixedFiles Bool none) true
      ⟨false, [], []⟩).1 = Outcome.returned (some ErrInvalid) ∧
    (RegisterFnService (ContainerFS startableContainer) (fixedFiles Bool none) true
      ⟨false, [], []⟩).2.calls
      = [Call.UserHomeDir,
         Call.Mkdir "/root/.config" 0o755,
         Call.Mkdir "/root/.config/systemd" 0o755,
         Call.Mkdir "/root/.config/systemd/user" 0o755,
         Call.Create "/root/.config/systemd/user/fnserver.service",
         Call.WriteString none unitText,
         Call.Close none] ∧
    (GetFnStatus (ContainerFS startableContainer) true
      (RegisterFnService (ContainerFS startableContainer) (fixedFiles Bool none) true
        ⟨false, [], []⟩).2).1 = some (Error.New "Fn Daemon Inactive") ∧
    (RegisterFnService (ContainerFS startableContainer) (fixedFiles Bool none) false
      ⟨false, [], []⟩).1 = Outcome.returned none ∧
    (RegisterFnService (ContainerFS startableContainer) (fixedFiles Bool none) false
      ⟨false, [], []⟩).2.calls
      = [Call.UserHomeDir,
         Call.Mkdir "/root/.config" 0o755,
         Call.Mkdir "/root/.config/systemd" 0o755,
         Call.Mkdir "/root/.config/systemd/user" 0o755,
         Call.Create "/root/.config/systemd/user/fnserver.service",
         Call.WriteString none unitText,
         Call.Exec ["systemctl", "--user", "daemon-reload"],
         Call.Exec ["systemctl", "--user", "enable", "fnserver"],
         Call.Exec ["systemctl", "--user", "start", "fnserver"],
         Call.Close none] ∧
    (GetFnStatus (ContainerFS startableContainer) false
      (RegisterFnService (ContainerFS startableContainer) (fixedFiles Bool none) false
        ⟨false, [], []⟩).2).1 = none := by
  decide

/-- The method `ContainerFS.Create` never returns a file handle. -/
theorem ContainerFS.Create_nil_handle (c : Container κ) (path : String) (w : κ) :
    (ContainerFS.Create c path w).1.1 = none := by
  unfold ContainerFS.Create
  rcases he : (c.Exec ["sh", "-c", "touch " ++ path] w).1.err with _ | e
  · by_cases hz : (c.Exec ["sh", "-c", "touch " ++ path] w).1.code = 0 <;> simp [he, hz]
  · simp [he]

/-- The method `LocalFS.Create` returns a file handle exactly when it returns a
nil error. -/
theorem LocalFS.Create_handle_or_error (h : Host ω) (path : String) (r : HostRun ω) :
    ((LocalFS.Create h path r).1.1 = none ↔ (LocalFS.Create h path r).1.2 ≠ none) := by
  unfold LocalFS.Create
  rcases hc : (h.Create path r.world).1 with e | f <;> simp [hc]

/-- C7: the code misses the claim on `ContainerFS.Create`. When the `touch`
command succeeds it returns a nil handle with a nil error, and
`RegisterFnService` then calls `WriteString` and `Close` on the nil handle. -/
theorem ContainerFS_Create_nil_nil :
    (ContainerFS.Create startableContainer "/root/.config/systemd/user/fnserver.service"
      false).1 = (none, none) ∧
    Call.WriteString none unitText ∈
      (RegisterFnService (ContainerFS startableContainer) (fixedFiles Bool none) false
        ⟨false, [], []⟩).2.calls ∧
    Call.Close none ∈
      (RegisterFnService (ContainerFS startableContainer) (fixedFiles Bool none) false
        ⟨false, [], []⟩).2.calls := by
  decide

/-- C10: the code misses the claim where the write of the unit file fails. With
`verbose` set `RegisterFnService` returns the write error and issues no `Exec`;
without it the same backend gets the three `Exec` calls and nil. -/
theorem RegisterFnService_verbose_changes_result :
    (RegisterFnService inactiveHost.fs
      (fixedFiles Unit (some (.New "no space left on device"))) true ⟨(), [], []⟩).1
      = Outcome.returned (some (.New "no space left on device")) ∧
    (RegisterFnService inactiveHost.fs
      (fixedFiles Unit (some (.New "no space left on device"))) true ⟨(), [], []⟩).2.calls
      = [Call.UserHomeDir,
         Call.Mkdir "/home/u/.config" 0o755,
         Call.Mkdir "/home/u/.config/systemd" 0o755,
         Call.Mkdir "/home/u/.config/systemd/user" 0o755,
         Call.Create "/home/u/.config/systemd/user/fnserver.service",
         Call.WriteString (some ⟨3⟩) unitText,
         Call.Close (some ⟨3⟩)] ∧
    (RegisterFnService inactiveHost.fs
      (fixedFiles Unit (some (.New "no space left on device"))) false ⟨(), [], []⟩).1
      = Outcome.returned none ∧
    (RegisterFnService inactiveHost.fs
      (fixedFiles Unit (some (.New "no space left on device"))) false ⟨(), [], []⟩).2.calls
      = [Call.UserHomeDir,
         Call.Mkdir "/home/u/.config" 0o755,
         Call.Mkdir "/home/u/.config/systemd" 0o755,
         Call.Mkdir "/home/u/.config/systemd/user" 0o755,
         Call.Create "/home/u/.config/systemd/user/fnserver.service",
         Call.WriteString (some ⟨3⟩) unitText,
         Call.Exec ["systemctl", "--user", "daemon-reload"],
         Call.Exec ["systemctl", "--user", "enable", "fnserver"],
         Call.Exec ["systemctl", "--user", "start", "fnserver"],
         Call.Close (some ⟨3⟩)] := by
  decide

/-- For `GetFnStatus` the flag `verbose` changes the emitted text only: result,
calls and world are the same. -/
theorem GetFnStatus_verbose (fs : FS σ) (r : Run σ) :
    (GetFnStatus fs true r).1 = (GetFnStatus fs false r).1 ∧
    (GetFnStatus fs true r).2.calls = (GetFnStatus fs false r).2.calls ∧
    (GetFnStatus fs true r).2.world = (GetFnStatus fs false r).2.world := by
  by_cases h : TrimSpace
      (fs.Exec ["systemctl", "--user", "is-active", "fnserver"] r.world).1.output = "active" <;>
    simp [GetFnStatus, Run.Exec, Run.printIf, Run.print, fnservicename, h]

/-- Where no write fails (every `Create` without error hands back a file, and
every write on a file succeeds), `verbose` changes the emitted text of
`RegisterFnService` only. -/
theorem RegisterFnService_same_without_write_error (fs : FS σ) (ops : FileOps σ) (r : Run σ)
    (hfile : ∀ p w, (fs.Create p w).1.2 = none → (fs.Create p w).1.1 ≠ none)
    (hwrite : ∀ f s w, (ops.WriteString f s w).1.2 = none) :
    (RegisterFnService fs ops true r).1 = (RegisterFnService fs ops false r).1 ∧
    (RegisterFnService fs ops true r).2.calls = (RegisterFnService fs ops false r).2.calls ∧
    (RegisterFnService fs ops true r).2.world = (RegisterFnService fs ops false r).2.world := by
  simp only [RegisterFnService, RegisterFnService.create, Run.Create, Run.Mkdir,
    Run.UserHomeDir, Run.printIf, Run.print]
  simp only [if_true, Bool.false_eq_true, if_false]
  generalize hp : (fs.UserHomeDir r.world).1.1 ++ "/.config/systemd/user/" ++ fnservicename
    ++ ".service" = p
  generalize hw : (fs.Mkdir ((fs.UserHomeDir r.world).1.1 ++ "/.config/systemd/user") 0o755
    (fs.Mkdir ((fs.UserHomeDir r.world).1.1 ++ "/.config/systemd") 0o755
      (fs.Mkdir ((fs.UserHomeDir r.world).1.1 ++ "/.config") 0o755
        (fs.UserHomeDir r.world).2).2).2).2 = w
  have hf := hfile p w
  rcases he : (fs.Create p w).1.2 with _ | e
  · obtain ⟨f, hf1⟩ := Option.ne_none_iff_exists'.mp (hf he)
    simp [hf1, Run.WriteString, Run.Close, Run.Exec, Run.printIf, Run.print, hwrite]
  · simp

/-- C9, as stated, fails: the text that `RegisterFnService` writes has no line
equal to `ExecStart=/usr/local/bin/fn start` and no line equal to
`Restart=on-failure`; every non-empty line of the text starts with a tab. -/
theorem unitText_lines_not_bare :
    Call.WriteString (some ⟨3⟩) unitText ∈
      (RegisterFnService inactiveHost.fs (fixedFiles Unit none) false ⟨(), [], []⟩).2.calls ∧
    "ExecStart=/usr/local/bin/fn start" ∉ lines unitText ∧
    "Restart=on-failure" ∉ lines unitText := by
  decide

/-- C9 (amended): when `Create` returns no error, `RegisterFnService` creates
`<home>/.config/systemd/user/fnserver.service`, `<home>` being the string that
`UserHomeDir` returned, and writes `unitText` to the handle of that `Create`, in
one write. The text holds the line `ExecStart=/usr/local/bin/fn start` with one
tab before it and one blank after it, and the line `Restart=on-failure` with
one tab before it; trimmed of white space they are the two literals. -/
theorem RegisterFnService_unit_file (fs : FS σ) (ops : FileOps σ) (verbose : Bool)
    (r : Run σ) (h : (RegisterFnService.create fs verbose r).1.2 = none) :
    (∃ tail : List Call,
      (RegisterFnService fs ops verbose r).2.calls = r.calls ++
        [Call.UserHomeDir,
         Call.Mkdir ((fs.UserHomeDir r.world).1.1 ++ "/.config") 0o755,
         Call.Mkdir ((fs.UserHomeDir r.world).1.1 ++ "/.config/systemd") 0o755,
         Call.Mkdir ((fs.UserHomeDir r.world).1.1 ++ "/.config/systemd/user") 0o755,
         Call.Create ((fs.UserHomeDir r.world).1.1 ++ "/.config/systemd/user/fnserver.service"),
         Call.WriteString (RegisterFnService.create fs verbose r).1.1 unitText] ++ tail ∧
      ∀ f s, Call.WriteString f s ∉ tail) ∧
    "\tExecStart=/usr/local/bin/fn start " ∈ lines unitText ∧
    "\tRestart=on-failure" ∈ lines unitText ∧
    TrimSpace "\tExecStart=/usr/local/bin/fn start " = "ExecStart=/usr/local/bin/fn start" ∧
    TrimSpace "\tRestart=on-failure" = "Restart=on-failure" := by
  refine ⟨?_, by decide, by decide, by decide, by decide⟩
  have hc := RegisterFnService.create_calls fs verbose r
  have hcases := RegisterFnService_cases fs ops verbose r
  simp only [h] at hcases
  split at hcases
  · exact ⟨[Call.Close (RegisterFnService.create fs verbose r).1.1],
      by rw [hcases.2, hc]; simp, by simp⟩
  · exact ⟨[Call.Exec ["systemctl", "--user", "daemon-reload"],
        Call.Exec ["systemctl", "--user", "enable", "fnserver"],
        Call.Exec ["systemctl", "--user", "start", "fnserver"],
        Call.Close (RegisterFnService.create fs verbose r).1.1],
      by rw [hcases.2, hc]; simp, by simp⟩

/-- Witness of C9 (amended): on a host with home `/home/u` the unit file is
`/home/u/.config/systemd/user/fnserver.service` and receives `unitText`. -/
theorem RegisterFnService_unit_file_witness :
    (RegisterFnService.create inactiveHost.fs false ⟨(), [], []⟩).1.2 = none ∧
    ∃ tail : List Call,
      (RegisterFnService inactiveHost.fs (fixedFiles Unit none) false ⟨(), [], []⟩).2.calls =
        [Call.UserHomeDir,
         Call.Mkdir "/home/u/.config" 0o755,
         Call.Mkdir "/home/u/.config/systemd" 0o755,
         Call.Mkdir "/home/u/.config/systemd/user" 0o755,
         Call.Create "/home/u/.config/systemd/user/fnserver.service",
         Call.WriteString (some ⟨3⟩) unitText] ++ tail ∧
      ∀ f s, Call.WriteString f s ∉ tail := by
  refine ⟨by decide, ?_⟩
  obtain ⟨tail, h1, h2⟩ := (RegisterFnService_unit_file inactiveHost.fs (fixedFiles Unit none)
    false ⟨(), [], []⟩ (by decide)).1
  exact ⟨tail, h1.trans (by simp [inactiveHost, Script.fs, RegisterFnService.create,
    Run.Create, Run.Mkdir, Run.UserHomeDir, Run.printIf]), h2⟩

/-- The error `os.Stat` returns for a missing path is `os.ErrNotExist` for
`errors.Is`, also when wrapped once more; the error for a path that cannot be
reached is not. -/
theorem errorsIs_stat_errors :
    errorsIs (.PathError "stat" "/new/dir" (.Errno ENOENT)) ErrNotExist = true ∧
    errorsIs (.Wrap "lookup: %w" [.cause] (.PathError "stat" "/new/dir" (.Errno ENOENT)))
      ErrNotExist = true ∧
    errorsIs ErrNotExist ErrNotExist = true ∧
    errorsIs (.PathError "stat" "/locked/dir" (.Errno EACCES)) ErrNotExist = false ∧
    errorsIs (.PathError "stat" "/locked/dir" (.Errno EACCES)) ErrPermission = true ∧
    errorsIs (.New "no such file or directory") ErrNotExist = false := by
  decide

/-- C8, as stated, fails: `/locked/dir` exists as a directory, but `os.Stat`
cannot reach it and fails with `EACCES`; `LocalFS.Mkdir` then returns an error
(and leaves the file system alone) instead of nil. -/
theorem LocalFS_Mkdir_unreachable_directory :
    (⟨"/locked/dir", true, 0o755, false⟩ : Entry) ∈ someFiles ∧
    dirHost.Stat "/locked/dir" someFiles
      = .error (.PathError "stat" "/locked/dir" (.Errno EACCES)) ∧
    (LocalFS.Mkdir dirHost "/locked/dir" 0o755 ⟨someFiles, []⟩).1
      = some (.Wrap "error checking directory %q: %w" [.str "/locked/dir", .cause]
          (.PathError "stat" "/locked/dir" (.Errno EACCES))) ∧
    (LocalFS.Mkdir dirHost "/locked/dir" 0o755 ⟨someFiles, []⟩).2.world = someFiles ∧
    (LocalFS.Mkdir dirHost "/locked/dir" 0o755 ⟨someFiles, []⟩).2.calls
      = [HostCall.Stat "/locked/dir"] := by
  refine ⟨by decide, rfl, by decide, by decide, by decide⟩

/-- C8 (amended): what `LocalFS.Mkdir` does is decided by `os.Stat`. When `Stat`
reports a directory it returns nil after that one `Stat`, with no `MkdirAll`, no
`Chmod` and the world unchanged, so that a second call does the same. When
`Stat` reports a path that is not a directory, or fails with an error that is
not `os.ErrNotExist`, it returns an error and changes nothing. Only when `Stat`
fails with `os.ErrNotExist` does it call `MkdirAll path perm` and, once that
succeeded, `Chmod path perm`: the world is then the one these two calls leave,
and the result is nil exactly when both succeeded. -/
theorem LocalFS_Mkdir_contract (h : Host ω) (path : String) (perm : Nat) (r : HostRun ω) :
    (∀ info, h.Stat path r.world = .ok info → info.IsDir = true →
      (LocalFS.Mkdir h path perm r).1 = none ∧
      (LocalFS.Mkdir h path perm r).2.world = r.world ∧
      (LocalFS.Mkdir h path perm r).2.calls = r.calls ++ [HostCall.Stat path] ∧
      (LocalFS.Mkdir h path perm (LocalFS.Mkdir h path perm r).2).1 = none ∧
      (LocalFS.Mkdir h path perm (LocalFS.Mkdir h path perm r).2).2.world = r.world ∧
      (LocalFS.Mkdir h path perm (LocalFS.Mkdir h path perm r).2).2.calls
        = r.calls ++ [HostCall.Stat path, HostCall.Stat path]) ∧
    (∀ info, h.Stat path r.world = .ok info → info.IsDir = false →
      (LocalFS.Mkdir h path perm r).1 ≠ none ∧
      (LocalFS.Mkdir h path perm r).2.world = r.world ∧
      (LocalFS.Mkdir h path perm r).2.calls = r.calls ++ [HostCall.Stat path]) ∧
    (∀ err, h.Stat path r.world = .error err → errorsIs err ErrNotExist = false →
      (LocalFS.Mkdir h path perm r).1 ≠ none ∧
      (LocalFS.Mkdir h path perm r).2.world = r.world ∧
      (LocalFS.Mkdir h path perm r).2.calls = r.calls ++ [HostCall.Stat path]) ∧
    (∀ err, h.Stat path r.world = .error err → errorsIs err ErrNotExist = true →
      (LocalFS.Mkdir h path perm r).2.calls
        = r.calls ++ [HostCall.Stat path, HostCall.MkdirAll path perm] ++
          (if (h.MkdirAll path perm r.world).1 = none then [HostCall.Chmod path perm] else []) ∧
      (LocalFS.Mkdir h path perm r).2.world
        = (if (h.MkdirAll path perm r.world).1 = none then
            (h.Chmod path perm (h.MkdirAll path perm r.world).2).2
          else (h.MkdirAll path perm r.world).2) ∧
      ((LocalFS.Mkdir h path perm r).1 = none ↔
        (h.MkdirAll path perm r.world).1 = none ∧
        (h.Chmod path perm (h.MkdirAll path perm r.world).2).1 = none)) ∧
    ((∃ p m, HostCall.MkdirAll p m ∈ (LocalFS.Mkdir h path perm r).2.calls.drop r.calls.length ∨
        HostCall.Chmod p m ∈ (LocalFS.Mkdir h path perm r).2.calls.drop r.calls.length) →
      ∃ err, h.Stat path r.world = .error err ∧ errorsIs err ErrNotExist = true) := by
  refine ⟨?_, ?_, ?_, ?_, ?_⟩
  · intro info hs hd
    have h1 : LocalFS.Mkdir h path perm r
        = (none, { r with calls := r.calls ++ [HostCall.Stat path] }) := by
      simp [LocalFS.Mkdir, hs, hd]
    have h2 : LocalFS.Mkdir h path perm { r with calls := r.calls ++ [HostCall.Stat path] }
        = (none, { r with calls := r.calls ++ [HostCall.Stat path] ++ [HostCall.Stat path] }) := by
      simp [LocalFS.Mkdir, hs, hd]
    simp [h1, h2]
  · intro info hs hd
    simp [LocalFS.Mkdir, hs, hd]
  · intro err hs hn
    simp [LocalFS.Mkdir, hs, hn]
  · intro err hs hn
    rcases hm : (h.MkdirAll path perm r.world).1 with _ | e
    · rcases hc : (h.Chmod path perm (h.MkdirAll path perm r.world).2).1 with _ | e2 <;>
        simp [LocalFS.Mkdir, hs, hn, hm, hc]
    · simp [LocalFS.Mkdir, hs, hn, hm]
  · rintro ⟨p, m, hmem⟩
    rcases hs : h.Stat path r.world with err | info
    · by_cases hn : errorsIs err ErrNotExist = true
      · exact ⟨err, rfl, hn⟩
      · exfalso
        simp [LocalFS.Mkdir, hs, hn] at hmem
    · exfalso
      by_cases hd : info.IsDir = true <;> simp [LocalFS.Mkdir, hs, hd] at hmem

/-- Witness of C8 (amended): on `someFiles`, `Mkdir` of the directory
`/existing/dir` returns nil twice and leaves the world alone; `Mkdir` of the
file `/etc/passwd` fails; `Mkdir` of the missing `/new/dir` issues `Stat`,
`MkdirAll` and `Chmod`, returns nil, and leaves a world in which `/new` and
`/new/dir` are directories with permission `0755`. -/
theorem LocalFS_Mkdir_contract_witness :
    ((LocalFS.Mkdir dirHost "/existing/dir" 0o755
        (LocalFS.Mkdir dirHost "/existing/dir" 0o755 ⟨someFiles, []⟩).2).1 = none ∧
      (LocalFS.Mkdir dirHost "/existing/dir" 0o755
        (LocalFS.Mkdir dirHost "/existing/dir" 0o755 ⟨someFiles, []⟩).2).2.world = someFiles) ∧
    (LocalFS.Mkdir dirHost "/etc/passwd" 0o755 ⟨someFiles, []⟩).1 ≠ none ∧
    ((LocalFS.Mkdir dirHost "/new/dir" 0o755 ⟨someFiles, []⟩).2.calls
        = [HostCall.Stat "/new/dir", HostCall.MkdirAll "/new/dir" 0o755,
           HostCall.Chmod "/new/dir" 0o755] ∧
      (LocalFS.Mkdir dirHost "/new/dir" 0o755 ⟨someFiles, []⟩).2.world
        = ⟨"/new", true, 0o755, true⟩ :: ⟨"/new/dir", true, 0o755, true⟩ :: someFiles ∧
      (LocalFS.Mkdir dirHost "/new/dir" 0o755 ⟨someFiles, []⟩).1 = none) := by
  refine ⟨?_, ?_, ?_⟩
  · have h := (LocalFS_Mkdir_contract dirHost "/existing/dir" 0o755 ⟨someFiles, []⟩).1
      ⟨true⟩ rfl rfl
    exact ⟨h.2.2.2.1, h.2.2.2.2.1⟩
  · exact ((LocalFS_Mkdir_contract dirHost "/etc/passwd" 0o755 ⟨someFiles, []⟩).2.1
      ⟨false⟩ rfl rfl).1
  · have h := (LocalFS_Mkdir_contract dirHost "/new/dir" 0o755 ⟨someFiles, []⟩).2.2.2.1
      (.PathError "stat" "/new/dir" (.Errno ENOENT)) rfl (by decide)
    exact ⟨h.1.trans (by decide), h.2.1.trans (by decide), h.2.2.mpr (by decide)⟩

/-- On a backend whose methods always return, `Proc.GetFnStatus` is `GetFnStatus`. -/
theorem toProc_GetFnStatus (fs : FS σ) (verbose : Bool) (r : Run σ) :
    Proc.GetFnStatus fs.toProc verbose r
      = (.returned (GetFnStatus fs verbose r).1, (GetFnStatus fs verbose r).2) := by
  by_cases h : TrimSpace
      (fs.Exec ["systemctl", "--user", "is-active", fnservicename] r.world).1.output = "active" <;>
    cases verbose <;>
    simp [Proc.GetFnStatus, GetFnStatus, bind, Prog.bind, pure, Prog.pure, Prog.call,
      Prog.printIf, FS.toProc, Run.Exec, Run.printIf, Run.print, h]

/-- On a backend whose methods always return, `Proc.RegisterFnService` is
`RegisterFnService`. -/
theorem toProc_RegisterFnService (fs : FS σ) (ops : FileOps σ) (verbose : Bool)
    (r : Run σ) :
    Proc.RegisterFnService fs.toProc ops verbose r = RegisterFnService fs ops verbose r := by
  cases verbose <;>
    simp only [Proc.RegisterFnService, RegisterFnService, RegisterFnService.create, bind,
      Prog.bind, pure, Prog.pure, Prog.call, Prog.printIf, Prog.print, Prog.exit,
      Prog.WriteString, Prog.Close, FS.toProc, Run.Create, Run.Mkdir, Run.UserHomeDir,
      Run.Exec, Run.printIf, Run.print] <;>
    split <;>
    simp_all [Prog.bind, Prog.pure, Prog.call, Prog.print, Prog.printIf, Prog.exit,
      Prog.WriteString, Prog.Close, Run.print, Run.printIf]
  rcases hw : (Run.WriteString ops
      (fs.Create ((fs.UserHomeDir r.world).1.1 ++ "/.config/systemd/user/" ++ fnservicename
          ++ ".service")
        (fs.Mkdir ((fs.UserHomeDir r.world).1.1 ++ "/.config/systemd/user") 493
          (fs.Mkdir ((fs.UserHomeDir r.world).1.1 ++ "/.config/systemd") 493
            (fs.Mkdir ((fs.UserHomeDir r.world).1.1 ++ "/.config") 493
              (fs.UserHomeDir r.world).2).2).2).2).1.1
      unitText _).1.2 with _ | e <;>
    simp [hw, Prog.bind, Prog.pure, Prog.call, Prog.print, Prog.printIf, Prog.exit,
      Prog.WriteString, Prog.Close, Run.print, Run.printIf]

/-- The calls of `Proc.GetFnStatus`: the status command, whether or not the
backend returns from it. -/
theorem Proc_GetFnStatus_calls (fs : ProcFS σ) (verbose : Bool) (r : Run σ) :
    (Proc.GetFnStatus fs verbose r).2.calls
      = r.calls ++ [Call.Exec ["systemctl", "--user", "is-active", "fnserver"]] := by
  simp only [Proc.GetFnStatus, bind, Prog.bind, pure, Prog.pure, Prog.call, Prog.printIf,
    fnservicename]
  split
  · split <;> cases verbose <;>
      simp [Prog.bind, Prog.pure, Prog.printIf, Run.printIf, Run.print]
  · cases verbose <;> simp [Run.printIf, Run.print]

/-- The call recorded by `Run.WriteString`. -/
theorem Run.WriteString_calls (ops : FileOps σ) (file : Option File) (t : String) (r : Run σ) :
    (Run.WriteString ops file t r).2.calls = r.calls ++ [Call.WriteString file t] := by
  cases file <;> simp [Run.WriteString]

/-- The call recorded by `Run.Close`. -/
theorem Run.Close_calls (ops : FileOps σ) (file : Option File) (r : Run σ) :
    (Run.Close ops file r).2.calls = r.calls ++ [Call.Close file] := by
  cases file <;> simp [Run.Close]

/-- Returning a value issues no call. -/
theorem Prog.issues_pure (a : Call) (x : α) : Prog.Issues a 0 (Prog.pure x : Prog σ α) :=
  fun r => ⟨[], by simp [Prog.pure], rfl⟩

/-- Ending the process issues no call. -/
theorem Prog.issues_exit (a : Call) (code : Int) : Prog.Issues a 0 (Prog.exit code : Prog σ α) :=
  fun r => ⟨[], by simp [Prog.exit], rfl⟩

/-- A program that avoids `a`, followed by programs that avoid `a`, avoids `a`. -/
theorem Prog.issues_bind (a : Call) (m : Prog σ α) (f : α → Prog σ β)
    (hm : Prog.Issues a 0 m) (hf : ∀ x, Prog.Issues a 0 (f x)) :
    Prog.Issues a 0 (Prog.bind m f) := by
  intro r
  obtain ⟨mid, h1, h2⟩ := hm r
  rcases hx : (m r).1 with x | code
  · obtain ⟨mid2, h3, h4⟩ := hf x (m r).2
    exact ⟨mid ++ mid2, by simp [Prog.bind, hx, h3, h1], by simp [h2, h4]⟩
  · exact ⟨mid, by simp [Prog.bind, hx, h1], h2⟩

/-- Printing issues no call. -/
theorem Prog.issues_print (a : Call) (o : Output) : Prog.Issues a 0 (Prog.print o : Prog σ Unit) :=
  fun r => ⟨[], by simp [Prog.print, Run.print], rfl⟩

/-- Printing under `verbose` issues no call. -/
theorem Prog.issues_printIf (a : Call) (verbose : Bool) (o : Output) :
    Prog.Issues a 0 (Prog.printIf verbose o : Prog σ Unit) :=
  fun r => ⟨[], by cases verbose <;> simp [Prog.printIf, Run.printIf, Run.print], rfl⟩

/-- A backend call other than `a` does not issue `a`. -/
theorem Prog.issues_call (a c : Call) (op : σ → Outcome α × σ) (h : c ≠ a) :
    Prog.Issues a 0 (Prog.call c op) :=
  fun r => ⟨[c], by simp [Prog.call], by simp [List.count_cons, h]⟩

/-- A write to a file is neither `UserHomeDir` nor an `Exec`. -/
theorem Prog.issues_WriteString (a : Call) (ops : FileOps σ) (file : Option File) (t : String)
    (h : Call.WriteString file t ≠ a) : Prog.Issues a 0 (Prog.WriteString ops file t) :=
  fun r => ⟨[Call.WriteString file t], by simp [Prog.WriteString, Run.WriteString_calls],
    by simp [List.count_cons, h]⟩

/-- Closing a file is neither `UserHomeDir` nor an `Exec`. -/
theorem Prog.issues_Close (a : Call) (ops : FileOps σ) (file : Option File)
    (h : Call.Close file ≠ a) : Prog.Issues a 0 (Prog.Close ops file) :=
  fun r => ⟨[Call.Close file], by simp [Prog.Close, Run.Close_calls],
    by simp [List.count_cons, h]⟩

/-- The call `a` followed by programs that avoid `a` issues `a` once. -/
theorem Prog.issues_call_bind (a : Call) (op : σ → Outcome α × σ) (f : α → Prog σ β)
    (hf : ∀ x, Prog.Issues a 0 (f x)) : Prog.Issues a 1 (Prog.bind (Prog.call a op) f) := by
  intro r
  rcases hx : (op r.world).1 with x | code
  · obtain ⟨mid2, h3, h4⟩ := hf x (Prog.call a op r).2
    simp only [Prog.call] at h3
    exact ⟨a :: mid2, by simp [Prog.bind, hx, h3, Prog.call], by simp [h4]⟩
  · exact ⟨[a], by simp [Prog.bind, hx, Prog.call], by simp⟩

/-- Text printed ahead of a program does not change its calls. -/
theorem Prog.issues_printIf_bind (a : Call) (n : Nat) (verbose : Bool) (o : Output)
    (f : Unit → Prog σ β) (hf : Prog.Issues a n (f ())) :
    Prog.Issues a n (Prog.bind (Prog.printIf verbose o) f) := by
  intro r
  obtain ⟨mid, h1, h2⟩ := hf (r.printIf verbose o)
  refine ⟨mid, ?_, h2⟩
  have : (r.printIf verbose o).calls = r.calls := by
    cases verbose <;> simp [Run.printIf, Run.print]
  simp [Prog.bind, Prog.printIf, h1, this]

/-- The function `Proc.RegisterFnService` issues no status command. -/
theorem Proc_RegisterFnService_no_status (fs : ProcFS σ) (ops : FileOps σ) (verbose : Bool) :
    Prog.Issues (Call.Exec ["systemctl", "--user", "is-active", "fnserver"]) 0
      (Proc.RegisterFnService fs ops verbose) := by
  simp only [Proc.RegisterFnService, bind, pure, fnservicename]
  repeat' first
    | exact Prog.issues_print _ _
    | exact Prog.issues_printIf _ _ _
    | exact Prog.issues_exit _ _
    | exact Prog.issues_pure _ _
    | exact Prog.issues_call _ _ _ (by simp)
    | exact Prog.issues_WriteString _ _ _ _ (by simp)
    | exact Prog.issues_Close _ _ _ (by simp)
    | apply Prog.issues_bind
    | split
    | intro _

/-- The function `Proc.RegisterFnService` issues `UserHomeDir` once. -/
theorem Proc_RegisterFnService_once (fs : ProcFS σ) (ops : FileOps σ) (verbose : Bool) :
    Prog.Issues Call.UserHomeDir 1 (Proc.RegisterFnService fs ops verbose) := by
  simp only [Proc.RegisterFnService, bind, pure, fnservicename]
  apply Prog.issues_printIf_bind
  apply Prog.issues_call_bind
  repeat' first
    | exact Prog.issues_print _ _
    | exact Prog.issues_printIf _ _ _
    | exact Prog.issues_exit _ _
    | exact Prog.issues_pure _ _
    | exact Prog.issues_call _ _ _ (by simp)
    | exact Prog.issues_WriteString _ _ _ _ (by simp)
    | exact Prog.issues_Close _ _ _ (by simp)
    | apply Prog.issues_bind
    | split
    | intro _

/-- The calls of one `Proc.RegisterFnService`, wherever it ends: they hold one
`UserHomeDir` and no status command. -/
theorem Proc_RegisterFnService_calls (fs : ProcFS σ) (ops : FileOps σ) (verbose : Bool)
    (r : Run σ) :
    ∃ mid : List Call,
      (Proc.RegisterFnService fs ops verbose r).2.calls = r.calls ++ mid ∧
      mid.count Call.UserHomeDir = 1 ∧
      mid.count (Call.Exec ["systemctl", "--user", "is-active", "fnserver"]) = 0 := by
  obtain ⟨mid, h1, h2⟩ := Proc_RegisterFnService_once fs ops verbose r
  obtain ⟨mid2, h3, h4⟩ := Proc_RegisterFnService_no_status fs ops verbose r
  have : mid = mid2 := List.append_cancel_left (h1.symm.trans h3)
  exact ⟨mid, h1, h2, this ▸ h4⟩

/-- On `LocalFS` a status check ends the process exactly when the command could
not be launched, and then with exit code 1. -/
theorem LocalFS_GetFnStatus_exit (h : Host ω) (verbose : Bool) (r : Run (HostRun ω))
    (code : Int) :
    (Proc.GetFnStatus (LocalFS h) verbose r).1 = Outcome.exited code ↔
      code = 1 ∧ ∃ err, (h.Command "systemctl" ["--user", "is-active", "fnserver"]
        r.world.world).1.err = some (CmdError.other err) := by
  rcases hc : (h.Command "systemctl" ["--user", "is-active", "fnserver"] r.world.world).1.err
    with _ | e
  · by_cases ht : TrimSpace (h.Command "systemctl" ["--user", "is-active", "fnserver"]
        r.world.world).1.output = "active" <;>
      cases verbose <;>
      simp [Proc.GetFnStatus, bind, pure, Prog.bind, Prog.pure, Prog.call, Prog.printIf,
        Run.printIf, Run.print, LocalFS, LocalFS.Exec, fnservicename, hc, ht]
  · cases e with
    | exit c =>
      by_cases ht : TrimSpace (h.Command "systemctl" ["--user", "is-active", "fnserver"]
          r.world.world).1.output = "active" <;>
        cases verbose <;>
        simp [Proc.GetFnStatus, bind, pure, Prog.bind, Prog.pure, Prog.call, Prog.printIf,
          Run.printIf, Run.print, LocalFS, LocalFS.Exec, fnservicename, hc, ht]
    | other err =>
      cases verbose <;>
        simp [Proc.GetFnStatus, bind, pure, Prog.bind, Prog.pure, Prog.call, Prog.printIf,
          Run.printIf, Run.print, LocalFS, LocalFS.Exec, fnservicename, hc, eq_comm]

/-- C2, as stated, fails. On a host with an inactive service whose `Create`
fails, `RegisterFnService` ends the process: the status command is issued once
only and the caller returns nothing. On a host without `systemctl` the first
status check ends the process inside `LocalFS.Exec`, and nothing is registered. -/
theorem PersistentPreRunE_register_exits :
    ((Proc.GetFnStatus (LocalFS hostCreateFails.host) false ⟨⟨(), []⟩, [], []⟩).1
        = Outcome.returned (some (Error.New "Fn Daemon Inactive")) ∧
      (PersistentPreRunE hostCreateFails.host false ⟨⟨(), []⟩, [], []⟩).1 = Outcome.exited 1 ∧
      (PersistentPreRunE hostCreateFails.host false ⟨⟨(), []⟩, [], []⟩).2.calls
        = [Call.Exec ["systemctl", "--user", "is-active", "fnserver"],
           Call.UserHomeDir,
           Call.Mkdir "/home/u/.config" 0o755,
           Call.Mkdir "/home/u/.config/systemd" 0o755,
           Call.Mkdir "/home/u/.config/systemd/user" 0o755,
           Call.Create "/home/u/.config/systemd/user/fnserver.service"] ∧
      (PersistentPreRunE hostCreateFails.host false ⟨⟨(), []⟩, [], []⟩).2.calls.count
        (Call.Exec ["systemctl", "--user", "is-active", "fnserver"]) = 1) ∧
    ((Proc.GetFnStatus (LocalFS hostNoSystemctl.host) false ⟨⟨(), []⟩, [], []⟩).1
        = Outcome.exited 1 ∧
      (PersistentPreRunE hostNoSystemctl.host false ⟨⟨(), []⟩, [], []⟩).1 = Outcome.exited 1 ∧
      (PersistentPreRunE hostNoSystemctl.host false ⟨⟨(), []⟩, [], []⟩).2.calls
        = [Call.Exec ["systemctl", "--user", "is-active", "fnserver"]] ∧
      (PersistentPreRunE hostNoSystemctl.host false ⟨⟨(), []⟩, [], []⟩).2.world.calls
        = [HostCall.Command "systemctl" ["--user", "is-active", "fnserver"],
           HostCall.LogFatal (.New "executable file not found in $PATH")]) := by
  decide

/-- C2 (amended): the caller issues one status check. If it returns nil,
nothing is registered and the result is success. If it returns an error,
`RegisterFnService` runs exactly once (its calls `mid` hold one `UserHomeDir`
and no status command); if that returns, with or without an error, exactly one
more status check follows and the result is the result of that check. Each of
the three calls may end the process instead of returning (`log.Fatal` in
`LocalFS.Exec`, `log.Fatal` after a failed `Create`); the caller then ends with
the same exit code and issues no further call. -/
theorem PersistentPreRunE_lifecycle (h : Host ω) (verbose : Bool) (r : Run (HostRun ω)) :
    (∀ code, (Proc.GetFnStatus (LocalFS h) verbose r).1 = Outcome.exited code →
      (PersistentPreRunE h verbose r).1 = Outcome.exited code ∧
      (PersistentPreRunE h verbose r).2.calls
        = r.calls ++ [Call.Exec ["systemctl", "--user", "is-active", "fnserver"]]) ∧
    ((Proc.GetFnStatus (LocalFS h) verbose r).1 = Outcome.returned none →
      (PersistentPreRunE h verbose r).1 = Outcome.returned none ∧
      (PersistentPreRunE h verbose r).2.calls
        = r.calls ++ [Call.Exec ["systemctl", "--user", "is-active", "fnserver"]]) ∧
    (∀ e, (Proc.GetFnStatus (LocalFS h) verbose r).1 = Outcome.returned (some e) →
      ∃ mid : List Call,
        (Proc.RegisterFnService (LocalFS h) (LocalFS.files h) verbose
          (Proc.GetFnStatus (LocalFS h) verbose r).2).2.calls
          = r.calls ++ [Call.Exec ["systemctl", "--user", "is-active", "fnserver"]] ++ mid ∧
        mid.count Call.UserHomeDir = 1 ∧
        mid.count (Call.Exec ["systemctl", "--user", "is-active", "fnserver"]) = 0 ∧
        (∀ code, (Proc.RegisterFnService (LocalFS h) (LocalFS.files h) verbose
              (Proc.GetFnStatus (LocalFS h) verbose r).2).1 = Outcome.exited code →
          (PersistentPreRunE h verbose r).1 = Outcome.exited code ∧
          (PersistentPreRunE h verbose r).2.calls
            = r.calls ++ [Call.Exec ["systemctl", "--user", "is-active", "fnserver"]] ++ mid) ∧
        (∀ e1, (Proc.RegisterFnService (LocalFS h) (LocalFS.files h) verbose
              (Proc.GetFnStatus (LocalFS h) verbose r).2).1 = Outcome.returned e1 →
          (PersistentPreRunE h verbose r).1
            = (Proc.GetFnStatus (LocalFS h) verbose
                (Proc.RegisterFnService (LocalFS h) (LocalFS.files h) verbose
                  (Proc.GetFnStatus (LocalFS h) verbose r).2).2).1 ∧
          (PersistentPreRunE h verbose r).2.calls
            = r.calls ++ [Call.Exec ["systemctl", "--user", "is-active", "fnserver"]] ++ mid
                ++ [Call.Exec ["systemctl", "--user", "is-active", "fnserver"]])) := by
  have hs := Proc_GetFnStatus_calls (LocalFS h) verbose r
  refine ⟨?_, ?_, ?_⟩
  · intro code h1
    simp [PersistentPreRunE, bind, Prog.bind, h1, hs]
  · intro h1
    cases verbose <;>
      simp [PersistentPreRunE, bind, pure, Prog.bind, Prog.pure, Prog.printIf, Run.printIf,
        Run.print, h1, hs]
  · intro e h1
    obtain ⟨mid, hmid, hu, ha⟩ := Proc_RegisterFnService_calls (LocalFS h) (LocalFS.files h)
      verbose (Proc.GetFnStatus (LocalFS h) verbose r).2
    refine ⟨mid, by rw [hmid, hs], hu, ha, ?_, ?_⟩
    · intro code h2
      simp [PersistentPreRunE, bind, Prog.bind, h1, h2, hmid, hs]
    · intro e1 h2
      have h3 := Proc_GetFnStatus_calls (LocalFS h) verbose
        (Proc.RegisterFnService (LocalFS h) (LocalFS.files h) verbose
          (Proc.GetFnStatus (LocalFS h) verbose r).2).2
      rcases h4 : (Proc.GetFnStatus (LocalFS h) verbose
        (Proc.RegisterFnService (LocalFS h) (LocalFS.files h) verbose
          (Proc.GetFnStatus (LocalFS h) verbose r).2).2).1 with e2 | code
      · cases e2 <;> cases verbose <;>
          simp [PersistentPreRunE, bind, pure, Prog.bind, Prog.pure, Prog.printIf, Prog.print,
            Run.printIf, Run.print, h1, h2, h4, h3, hmid, hs]
      · simp [PersistentPreRunE, bind, Prog.bind, h1, h2, h4, h3, hmid, hs]

/-- Witness of C2 (amended): with an active service the caller succeeds after
one status command; with a service that stays inactive it registers once,
checks once more and returns the error of the second check; without
`systemctl` it ends with exit code 1 after the first status command. -/
theorem PersistentPreRunE_lifecycle_witness :
    (PersistentPreRunE hostActive.host true ⟨⟨(), []⟩, [], []⟩).1 = Outcome.returned none ∧
    ((PersistentPreRunE hostInactive.host false ⟨⟨(), []⟩, [], []⟩).1
        = Outcome.returned (some (Error.New "Fn Daemon Inactive")) ∧
      (PersistentPreRunE hostInactive.host false ⟨⟨(), []⟩, [], []⟩).2.calls.count
        (Call.Exec ["systemctl", "--user", "is-active", "fnserver"]) = 2) ∧
    ((PersistentPreRunE hostNoSystemctl.host true ⟨⟨(), []⟩, [], []⟩).1 = Outcome.exited 1 ∧
      (PersistentPreRunE hostNoSystemctl.host true ⟨⟨(), []⟩, [], []⟩).2.calls
        = [Call.Exec ["systemctl", "--user", "is-active", "fnserver"]]) := by
  refine ⟨?_, ?_, ?_⟩
  · exact ((PersistentPreRunE_lifecycle hostActive.host true ⟨⟨(), []⟩, [], []⟩).2.1
      (by decide)).1
  · obtain ⟨mid, _, _, ha, _, hret⟩ :=
      (PersistentPreRunE_lifecycle hostInactive.host false ⟨⟨(), []⟩, [], []⟩).2.2
        (Error.New "Fn Daemon Inactive") (by decide)
    have h := hret none (by decide)
    refine ⟨h.1.trans (by decide), ?_⟩
    rw [h.2]
    simp [List.count_append, ha]
  · exact (PersistentPreRunE_lifecycle hostNoSystemctl.host true ⟨⟨(), []⟩, [], []⟩).1 1
      (by decide)

end Funky
